import Mathlib

/-!
Shallow embedding of the AI voice agent's webhook-reconciliation core
(`main.py`, `call_handler.py`, `database.py`).  Python dictionaries are
embedded as structures of optional fields (absent key = `none`); machine
time is an abstract `Nat` threaded through each handler; the SQLite store
is a list of records, with `find`/`add`/`commit` mirroring the SQLAlchemy
calls the handlers make.  Fallible code (the Twilio branch can raise an
`AttributeError`, the store's unique index can reject a commit) returns
`Except`.
-/

namespace VoiceAgent

/-! ## String helpers: Python's `in` (substring test) and `str.lower` -/

/-- `listPrefixOf n h` is true when `n` is a prefix of `h`. -/
def listPrefixOf : List Char → List Char → Bool
  | [], _ => true
  | _ :: _, [] => false
  | a :: as, b :: bs => a == b && listPrefixOf as bs

/-- `listSubOf n h` is true when `n` occurs contiguously inside `h`. -/
def listSubOf (n : List Char) : List Char → Bool
  | [] => listPrefixOf n []
  | b :: bs => listPrefixOf n (b :: bs) || listSubOf n bs

/-- Python's `needle in hay` on strings. -/
def strContains (hay needle : String) : Bool :=
  listSubOf needle.data hay.data

/-- ASCII lowering of one character, as Python's `str.lower` acts on the
ASCII payloads this program handles. -/
def lowerChar (c : Char) : Char :=
  if 65 ≤ c.toNat && c.toNat ≤ 90 then Char.ofNat (c.toNat + 32) else c

/-- Python's `str.lower`. -/
def lowerStr (s : String) : String :=
  ⟨s.data.map lowerChar⟩

/-! ## Data model (`database.py`): the `CallRecord` row and the store.

`call_id` is `Option String` because the handlers can store the Python
`None` they received for an absent id. -/

structure CallRecord where
  call_id : Option String
  phone_number : String
  direction : String
  start_time : Nat
  end_time : Option Nat
  status : String
  transcript : String
  intent : Option String
deriving DecidableEq, Repr

/-- The store: the `call_records` table in insertion order. -/
abbrev DB := List CallRecord

/-- `db.query(CallRecord).filter(CallRecord.call_id == cid).first()`. -/
def dbFind (db : DB) (cid : Option String) : Option CallRecord :=
  db.find? (fun r => r.call_id == cid)

/-- Persisting a mutated row: replace the first record keyed by `cid`. -/
def dbReplace (db : DB) (cid : Option String) (r' : CallRecord) : DB :=
  match db with
  | [] => []
  | r :: rest => if r.call_id == cid then r' :: rest else r :: dbReplace rest cid r'

/-- `db.commit()` at the end of a handler that either added a fresh row
(`created = true`) or mutated the row it found. -/
def dbCommit (db : DB) (created : Bool) (cid : Option String) (r : CallRecord) : DB :=
  if created then db ++ [r] else dbReplace db cid r

/-- `db.add(r); db.commit()` under the unique index on `call_id`
(`unique=True` in `database.py`): a second row with the same non-null
`call_id` is rejected with an `IntegrityError`. -/
def commitAdd (db : DB) (r : CallRecord) : Except String DB :=
  if r.call_id.isSome && (dbFind db r.call_id).isSome then
    Except.error "IntegrityError: UNIQUE constraint failed: call_records.call_id"
  else
    Except.ok (db ++ [r])

/-- The glossary's terminal statuses. -/
def isTerminalStatus (s : String) : Bool :=
  s == "completed" || s == "failed"

/-! ## Webhook payloads: the dictionary keys the handlers read -/

structure Payload where
  callSid : Option String
  callStatus : Option String
  direction : Option String
  fromCap : Option String
  recordingUrl : Option String
  event : Option String
  fromField : Option String
  transcript : Option String
  call_id : Option String
deriving DecidableEq, Repr

/-- A payload with every key absent. -/
def emptyPayload : Payload :=
  { callSid := none, callStatus := none, direction := none, fromCap := none,
    recordingUrl := none, event := none, fromField := none, transcript := none,
    call_id := none }

/-! ## `call_handler.py`: intent detection and response generation -/

/-- `CallHandler._detect_intent`: lower the transcript, test the five
keyword lists in order, first hit wins, fallback `"general"`. -/
def detect_intent (transcript : String) : String :=
  let tl := lowerStr transcript
  if ["help", "support", "problem", "issue"].any (fun w => strContains tl w) then "support"
  else if ["schedule", "appointment", "book", "meeting"].any (fun w => strContains tl w) then "schedule"
  else if ["thank", "thanks", "appreciate"].any (fun w => strContains tl w) then "gratitude"
  else if ["speak", "human", "agent", "representative"].any (fun w => strContains tl w) then "agent_request"
  else if ["cancel", "stop", "end"].any (fun w => strContains tl w) then "terminate"
  else "general"

/-- The response dictionary of `CallHandler._generate_response`. -/
def responsesTable : List (String × String) :=
  [("support", "I understand you're having an issue. Could you please describe the problem in more detail so I can assist you better?"),
   ("schedule", "I'd be happy to help you schedule an appointment. What day and time works best for you?"),
   ("gratitude", "You're welcome! Is there anything else I can help with today?"),
   ("agent_request", "I'll connect you with a customer support agent right away. Please hold while I transfer your call."),
   ("terminate", "Thank you for calling. Have a great day!"),
   ("general", "How can I assist you further today?")]

/-- `CallHandler._generate_response`: `responses.get(intent, fallback)`. -/
def generate_response (intent : String) (transcript : String) : String :=
  match responsesTable.lookup intent with
  | some r => r
  | none => "I'm here to help. What can I do for you?"

/-- The dictionary returned by `CallHandler.handle_inbound_call` (and by
the webhook branches of `main.py` that build `{action, text, intent,
status}`-shaped replies). -/
structure RespDict where
  action : Option String := none
  text : Option String := none
  intent : Option String := none
  status : Option String := none
deriving DecidableEq, Repr

/-- `CallHandler.handle_inbound_call`.  `sim` is `self.simulation_mode`;
the unused `call_id` lookup of the source is omitted. -/
def handle_inbound_call (sim : Bool) (call_data : Payload) : RespDict :=
  if sim then
    { action := some "talk", text := some "Thanks for calling. This is a simulated response." }
  else if call_data.event == some "call.started" then
    { action := some "talk", text := some "Thank you for calling. How can I help you today?" }
  else if call_data.event == some "transcription" then
    let transcript := call_data.transcript.getD ""
    let intent := detect_intent transcript
    { action := some "talk", text := some (generate_response intent transcript),
      intent := some intent }
  else if call_data.event == some "call.ended" || call_data.event == some "call.completed" then
    { status := some "call_ended" }
  else
    { action := some "talk", text := some "I'm listening. How can I assist you?" }

/-- `CallHandler.__init__`: the simulation flag is
`os.getenv("SIMULATION_MODE", "True").lower() == "true"`; the argument is
the environment variable's value, `none` when unset. -/
def simulation_mode (env : Option String) : Bool :=
  lowerStr (env.getD "True") == "true"

/-! ## `main.py`: the webhook reconciler and the outbound initiator -/

/-- The record built when `handle_vapi_webhook` sees an unseen `call_id`:
inbound, `in-progress`, phone from the payload's `from` or `"unknown"`. -/
def vapiNewRecord (data : Payload) (call_id : Option String) (now : Nat) : CallRecord :=
  { call_id := call_id, phone_number := data.fromField.getD "unknown",
    direction := "inbound", start_time := now, end_time := none,
    status := "in-progress", transcript := "", intent := none }

/-- `handle_vapi_webhook`: find-or-create the record, then branch on the
`event` field exactly as the source's `if`/`elif` chain does.  Returns the
committed store and the `JSONResponse` dictionary. -/
def handle_vapi_webhook (sim : Bool) (data : Payload) (call_id : Option String)
    (now : Nat) (db : DB) : DB × RespDict :=
  let found := dbFind db call_id
  let created := found.isNone
  let rec0 := found.getD (vapiNewRecord data call_id now)
  if data.event == some "call.started" then
    let rec1 := { rec0 with status := "in-progress" }
    let response := handle_inbound_call sim data
    let rec2 := match response.text with
      | some t => { rec1 with transcript := rec1.transcript ++ "\nAI: " ++ t }
      | none => rec1
    (dbCommit db created call_id rec2, response)
  else if data.event == some "transcription" then
    let t := data.transcript.getD ""
    let rec1 := { rec0 with transcript := rec0.transcript ++ "\nCustomer: " ++ t }
    let response := handle_inbound_call sim data
    let rec2 := match response.intent with
      | some i => { rec1 with intent := some i }
      | none => rec1
    let rec3 := match response.text with
      | some tx => { rec2 with transcript := rec2.transcript ++ "\nAI: " ++ tx }
      | none => rec2
    (dbCommit db created call_id rec3, response)
  else if data.event == some "call.ended" || data.event == some "call.completed" then
    (dbCommit db created call_id { rec0 with status := "completed", end_time := some now },
     { status := some "call_ended" })
  else
    (dbCommit db created call_id rec0, { status := some "event_processed" })

/-- The `status_mapping` dictionary of `handle_twilio_webhook`, as
`dict.get` returning `none` for an unmapped key. -/
def statusMapping (s : String) : Option String :=
  if s == "queued" then some "initiated"
  else if s == "ringing" then some "initiated"
  else if s == "in-progress" then some "in-progress"
  else if s == "completed" then some "completed"
  else if s == "busy" then some "failed"
  else if s == "no-answer" then some "failed"
  else if s == "canceled" then some "failed"
  else if s == "failed" then some "failed"
  else none

/-- The terminal family `handle_twilio_webhook` tests before setting
`end_time`. -/
def twilioTerminal (s : String) : Bool :=
  s == "completed" || s == "busy" || s == "no-answer" || s == "canceled" || s == "failed"

/-- The record built when `handle_twilio_webhook` sees an unseen
`call_id` and a present `CallStatus` `cs`: status is the mapped provider
status (default `"in-progress"`), direction `"inbound"` only when the
payload's `Direction` is exactly `"inbound"`, phone from `From` or
`"unknown"`. -/
def twilioNewRecord (data : Payload) (call_id : Option String) (cs : String)
    (now : Nat) : CallRecord :=
  { call_id := call_id, phone_number := data.fromCap.getD "unknown",
    direction := if data.direction == some "inbound" then "inbound" else "outbound",
    start_time := now, end_time := none,
    status := (statusMapping (lowerStr cs)).getD "in-progress",
    transcript := "", intent := none }

/-- The reply of the Twilio branch: either the TwiML spoken-prompt
document (parameterised by the `call_id` it interpolates), or the generic
`{"status": "event_processed"}` acknowledgement. -/
inductive TwilioReply where
  | twiml (call_id : Option String) : TwilioReply
  | ack : TwilioReply
deriving DecidableEq, Repr

/-- The record mutations of `handle_twilio_webhook` after the status
update: recording placeholder append, then `end_time` on the terminal
family. -/
def twilioRecFinal (data : Payload) (now : Nat) (rec0 : CallRecord) : CallRecord :=
  let rec1 := if data.recordingUrl.isSome then
      { rec0 with transcript := rec0.transcript ++
          "\nCustomer: [Recording received but not transcribed in demo]" }
    else rec0
  match data.callStatus with
  | some cs => if twilioTerminal (lowerStr cs) then { rec1 with end_time := some now } else rec1
  | none => rec1

/-- The tail of `handle_twilio_webhook` after the find-or-create step:
the remaining record mutations, the commit, and the reply choice. -/
def twilioFinish (data : Payload) (call_id : Option String) (now : Nat) (db : DB)
    (created : Bool) (rec0 : CallRecord) : DB × TwilioReply :=
  let db2 := dbCommit db created call_id (twilioRecFinal data now rec0)
  if data.callStatus == some "in-progress" then (db2, TwilioReply.twiml call_id)
  else (db2, TwilioReply.ack)

/-- `handle_twilio_webhook`.  On an existing record a present `CallStatus`
is mapped (unmapped keeps the current status; the Python `if call_status:`
treats the empty string as absent, which coincides with mapping it to
nothing).  On an unseen `call_id` with `CallStatus` absent the source
evaluates `call_status.lower()` on `None` and raises. -/
def handle_twilio_webhook (data : Payload) (call_id : Option String) (now : Nat)
    (db : DB) : Except String (DB × TwilioReply) :=
  match dbFind db call_id with
  | some r =>
      let r1 := match data.callStatus with
        | some cs => { r with status := (statusMapping (lowerStr cs)).getD r.status }
        | none => r
      Except.ok (twilioFinish data call_id now db false r1)
  | none =>
      match data.callStatus with
      | none => Except.error "AttributeError: 'NoneType' object has no attribute 'lower'"
      | some cs => Except.ok (twilioFinish data call_id now db true (twilioNewRecord data call_id cs now))

/-- `call_id` extraction in `handle_call_webhook`: the query parameter,
unless it is missing or falsy (empty), in which case the body's
`call_id`. -/
def pickCallId (q b : Option String) : Option String :=
  match q, b with
  | none, b => b
  | some s, b => if s == "" then (match b with | some b' => some b' | none => some s) else some s

/-- What the `/call_webhook` endpoint returns: one of the two dialects'
replies, or the `HTTPException` the `except` clause raises when a branch
threw. -/
inductive WebhookOutcome where
  | vapiReply (r : RespDict) : WebhookOutcome
  | twilioReply (r : TwilioReply) : WebhookOutcome
  | httpError (code : Nat) : WebhookOutcome
deriving DecidableEq, Repr

/-- `handle_call_webhook`: dialect sniff on the presence of `CallSid`,
dispatch, and the `except` clause turning an exception into a 500 error
(the session's uncommitted state is discarded, so the store is unchanged
on that path). -/
def handle_call_webhook (sim : Bool) (queryCallId : Option String) (data : Payload)
    (now : Nat) (db : DB) : DB × WebhookOutcome :=
  let call_id := pickCallId queryCallId data.call_id
  if data.callSid.isSome then
    match handle_twilio_webhook data call_id now db with
    | Except.ok (db2, r) => (db2, WebhookOutcome.twilioReply r)
    | Except.error _ => (db, WebhookOutcome.httpError 500)
  else
    let (db2, r) := handle_vapi_webhook sim data call_id now db
    (db2, WebhookOutcome.vapiReply r)

/-- The JSON body `initiate_call` returns on success. -/
structure InitiateReply where
  status : String
  call_id : String
  audio_base64 : String
  message : String
deriving DecidableEq, Repr

/-- `initiate_call`: create and commit the outbound record first, then
synthesize speech (`ttsResult` is the Voice Synthesis collaborator's
outcome); on synthesis failure mark the record failed and raise a 500 to
the caller.  The background dial task runs later as
`handle_outbound_call`.  `outboundRecord` is the record it creates. -/
def outboundRecord (call_id phone_number message : String) (now : Nat) : CallRecord :=
  { call_id := some call_id, phone_number := phone_number, direction := "outbound",
    start_time := now, end_time := none, status := "initiated",
    transcript := "AI: " ++ message, intent := none }

def initiate_call (call_id phone_number message : String)
    (ttsResult : Except String String) (now : Nat) (db : DB) :
    DB × Except Nat InitiateReply :=
  let rec0 := outboundRecord call_id phone_number message now
  let db1 := db ++ [rec0]
  match ttsResult with
  | Except.ok audio =>
      let reply : InitiateReply :=
        { status := "call_initiated", call_id := call_id, audio_base64 := audio,
          message := "Call to " ++ phone_number ++ " is being processed" }
      (db1, Except.ok reply)
  | Except.error _ =>
      (dbReplace db1 (some call_id) { rec0 with status := "failed" }, Except.error 500)

/-- The background task `handle_outbound_call` once
`call_handler.make_outbound_call` resolved: `dialResult` is its outcome
(`error` when it raised, which the task swallows; otherwise the `status`
field of its reply dictionary).  The record's status becomes
`in-progress` exactly when that field is `"call_initiated"`, else
`failed` — with no check of the record's current status. -/
def handle_outbound_call (call_id : Option String)
    (dialResult : Except String (Option String)) (db : DB) : DB :=
  match dialResult with
  | Except.error _ => db
  | Except.ok st =>
      match dbFind db call_id with
      | some r => dbReplace db call_id
          { r with status := if st == some "call_initiated" then "in-progress" else "failed" }
      | none => db

/-! ## Spec-side classifier (for the refinement claim about
`_detect_intent`) -/

/-- The spec's five ordered category word-sets. -/
def intentTable : List (String × List String) :=
  [("support", ["help", "support", "problem", "issue"]),
   ("schedule", ["schedule", "appointment", "book", "meeting"]),
   ("gratitude", ["thank", "thanks", "appreciate"]),
   ("agent_request", ["speak", "human", "agent", "representative"]),
   ("terminate", ["cancel", "stop", "end"])]

/-- First category whose word-set has a member occurring in the lowered
transcript; `"general"` when none matches. -/
def firstMatch (tl : String) : List (String × List String) → String
  | [] => "general"
  | (label, ws) :: rest =>
      if ws.any (fun w => strContains tl w) then label else firstMatch tl rest

/-- The classifier as the spec words it: case-insensitive first-match over
the ordered table. -/
def classifySpec (transcript : String) : String :=
  firstMatch (lowerStr transcript) intentTable

/-! ## Interleaving model of the find-or-create race.

Each webhook delivery for an unseen `call_id` runs the two-step
check-then-act of the handlers: query for the record, then (if absent)
`db.add` + `db.commit`.  The store is shared; the scheduler may interleave
the two deliveries' steps arbitrarily. -/

/-- Where one delivery's find-or-create stands: not yet queried, queried
(with what it saw), or finished (having either adopted an existing /
freshly inserted record, or crashed on the unique-index violation). -/
inductive CreatePhase where
  | ready : CreatePhase
  | queried (found : Option CallRecord) : CreatePhase
  | finished (res : Except String Unit) : CreatePhase
deriving Repr

/-- One delivery's next step, given the current store. -/
def stepTask (cid : Option String) (factory : CallRecord) (db : DB) :
    CreatePhase → Option (DB × CreatePhase)
  | CreatePhase.ready => some (db, CreatePhase.queried (dbFind db cid))
  | CreatePhase.queried found =>
      match found with
      | some _ => some (db, CreatePhase.finished (Except.ok ()))
      | none =>
          match commitAdd db factory with
          | Except.ok db' => some (db', CreatePhase.finished (Except.ok ()))
          | Except.error e => some (db, CreatePhase.finished (Except.error e))
  | CreatePhase.finished _ => none

/-- Shared store plus the two deliveries' phases. -/
structure RaceState where
  db : DB
  t1 : CreatePhase
  t2 : CreatePhase
deriving Repr

/-- The scheduler steps one of the two deliveries. -/
inductive RaceStep (cid : Option String) (factory : CallRecord) :
    RaceState → RaceState → Prop where
  | left (db db' : DB) (t1 t1' t2 : CreatePhase) :
      stepTask cid factory db t1 = some (db', t1') →
      RaceStep cid factory ⟨db, t1, t2⟩ ⟨db', t1', t2⟩
  | right (db db' : DB) (t1 t2 t2' : CreatePhase) :
      stepTask cid factory db t2 = some (db', t2') →
      RaceStep cid factory ⟨db, t1, t2⟩ ⟨db', t1, t2'⟩

/-- Both deliveries yet to run, over an empty store. -/
def raceStart : RaceState :=
  ⟨[], CreatePhase.ready, CreatePhase.ready⟩

/-! ## Concrete inputs used by counterexamples and witnesses -/

/-- A record already terminal (`completed`). -/
def c1record : CallRecord :=
  { call_id := some "c1", phone_number := "p", direction := "inbound",
    start_time := 0, end_time := some 1, status := "completed",
    transcript := "", intent := none }

/-- A Dialect B `ringing` callback for that record. -/
def c1payload : Payload :=
  { emptyPayload with
      callSid := some "S1", callStatus := some "ringing", call_id := some "c1" }

/-- The default factory record both racing deliveries would insert. -/
def c2factory : CallRecord :=
  { call_id := some "c9", phone_number := "unknown", direction := "inbound",
    start_time := 0, end_time := none, status := "in-progress",
    transcript := "", intent := none }

/-- A Dialect B payload whose only key is `CallSid`. -/
def c3payload : Payload := { emptyPayload with callSid := some "CA1" }

/-- A Dialect A `call.ended` event for call `c4`. -/
def c4payload : Payload :=
  { emptyPayload with event := some "call.ended", call_id := some "c4" }

/-- Store after the first `call.ended` for the unseen `c4`, at time 1. -/
def c4db1 : DB := (handle_vapi_webhook false c4payload (some "c4") 1 []).1

/-- Store after the repeated `call.ended`, at time 2. -/
def c4db2 : DB := (handle_vapi_webhook false c4payload (some "c4") 2 c4db1).1

/-- Dialect A scenario events for call `c1`: `call.started`, then the
support transcription, then `call.ended`. -/
def c5started : Payload :=
  { emptyPayload with
      event := some "call.started", fromField := some "+15550001111", call_id := some "c1" }

def c5transcription : Payload :=
  { emptyPayload with
      event := some "transcription", transcript := some "I need help with my account",
      call_id := some "c1" }

def c5ended : Payload :=
  { emptyPayload with event := some "call.ended", call_id := some "c1" }

/-- The store after running the three-event Dialect A scenario (with
simulation mode disabled) against `db` for call id `cid`. -/
def c5run (db : DB) (cid : String) (t1 t2 t3 : Nat) : DB :=
  let db1 := (handle_vapi_webhook false c5started (some cid) t1 db).1
  let db2 := (handle_vapi_webhook false c5transcription (some cid) t2 db1).1
  (handle_vapi_webhook false c5ended (some cid) t3 db2).1

/-- The record after the scenario's `call.started`: created by the
default factory, status set, the AI greeting appended. -/
def c5rec1 (cid : String) (t1 : Nat) : CallRecord :=
  { call_id := some cid, phone_number := "+15550001111", direction := "inbound",
    start_time := t1, end_time := none, status := "in-progress",
    transcript := "\nAI: Thank you for calling. How can I help you today?",
    intent := none }

/-- The record after the scenario's transcription: Customer line,
detected intent, AI support response appended. -/
def c5rec2 (cid : String) (t1 : Nat) : CallRecord :=
  { c5rec1 cid t1 with
      transcript := "\nAI: Thank you for calling. How can I help you today?\nCustomer: I need help with my account\nAI: I understand you're having an issue. Could you please describe the problem in more detail so I can assist you better?",
      intent := some "support" }

/-- The record after the scenario's `call.ended`. -/
def c5rec3 (cid : String) (t1 t3 : Nat) : CallRecord :=
  { c5rec2 cid t1 with status := "completed", end_time := some t3 }

/-- A Dialect B `ringing` callback with no stated direction. -/
def c8payload : Payload :=
  { emptyPayload with callSid := some "S", callStatus := some "ringing" }

/-- A non-terminal existing record. -/
def c9record : CallRecord :=
  { call_id := some "c9x", phone_number := "p", direction := "inbound",
    start_time := 0, end_time := none, status := "initiated",
    transcript := "", intent := none }

/-- A Dialect B callback whose status string is upper-case, hence outside
the claim's fixed table. -/
def c9payload : Payload :=
  { emptyPayload with
      callSid := some "S", callStatus := some "COMPLETED", call_id := some "c9x" }

/-- A transcription event payload, for the simulation-mode claim. -/
def c10payload : Payload :=
  { emptyPayload with
      event := some "transcription", transcript := some "I need help", call_id := some "c10" }

/-- An existing in-progress record for call `c10`. -/
def c10record : CallRecord :=
  { call_id := some "c10", phone_number := "p", direction := "inbound",
    start_time := 0, end_time := none, status := "in-progress",
    transcript := "", intent := some "gratitude" }

/-! ## Store lemmas -/

theorem dbFind_append_of_none (db : DB) (k : Option String) (r : CallRecord)
    (h : dbFind db k = none) :
    dbFind (db ++ [r]) k = if r.call_id == k then some r else none := by
  unfold dbFind at *
  rw [List.find?_append, h]
  simp only [Option.none_or, List.find?_singleton]

theorem dbFind_replace_self (db : DB) (k : Option String) (r' : CallRecord)
    (hf : (dbFind db k).isSome = true) (h' : (r'.call_id == k) = true) :
    dbFind (dbReplace db k r') k = some r' := by
  induction db with
  | nil => simp [dbFind, List.find?] at hf
  | cons a rest ih =>
      by_cases ha : (a.call_id == k) = true
      · unfold dbReplace
        rw [if_pos ha]
        unfold dbFind
        exact List.find?_cons_of_pos _ h'
      · unfold dbReplace
        rw [if_neg ha]
        unfold dbFind
        rw [List.find?_cons_of_neg _ (by simp [ha])]
        apply ih
        unfold dbFind at hf
        rwa [List.find?_cons_of_neg _ (by simp [ha])] at hf

/-- The key of the record a lookup returns. -/
theorem dbFind_key (db : DB) (k : Option String) (r : CallRecord)
    (h : dbFind db k = some r) : (r.call_id == k) = true := by
  unfold dbFind at h
  have h2 := List.find?_some h
  simpa using h2

/-- A store in which `k` is absent counts no record keyed `k`. -/
theorem countP_of_dbFind_none (db : DB) (k : Option String)
    (h : dbFind db k = none) :
    db.countP (fun r => r.call_id == k) = 0 := by
  unfold dbFind at h
  rw [List.find?_eq_none] at h
  rw [List.countP_eq_zero]
  exact h

/-! ## Theorems -/

/-- C6: `_detect_intent` performs a case-insensitive substring match
against the five category word-sets in the fixed order support, schedule,
gratitude, agent_request, terminate, returning the first category one of
whose words occurs in the lowered transcript and `"general"` when none
does (in particular on empty input).  As a total Lean function it cannot
fail and has no side effects. -/
theorem C6_classifier_first_match :
    (∀ s : String, detect_intent s = classifySpec s) ∧
    detect_intent "" = "general" :=
  ⟨fun _ => rfl, rfl⟩

/-- C3 (code bug): a Dialect B payload carrying only `CallSid` — a shape
with `CallStatus` missing — makes `handle_twilio_webhook` raise
(`call_status.lower()` on `None`), so the webhook endpoint answers with a
500 error instead of the generic acknowledgement, while the store is left
unchanged. -/
theorem C3_crash_on_missing_status :
    handle_twilio_webhook c3payload none 0 [] =
      Except.error "AttributeError: 'NoneType' object has no attribute 'lower'" ∧
    handle_call_webhook false none c3payload 0 [] = ([], WebhookOutcome.httpError 500) ∧
    WebhookOutcome.httpError 500 ≠ WebhookOutcome.twilioReply TwilioReply.ack :=
  ⟨rfl, rfl, by decide⟩

/-- C1 (counterexample): the record for `c1` is terminal (`completed`),
yet a later Dialect B `ringing` callback moves its status back to
`initiated`. -/
theorem C1_counterexample :
    isTerminalStatus c1record.status = true ∧
    Option.map CallRecord.status
        (dbFind (handle_call_webhook false none c1payload 2 [c1record]).1 (some "c1")) =
      some "initiated" :=
  ⟨rfl, rfl⟩

/-- C4 (counterexample): the first `call.ended` for the unseen `c4` sets
`end_time` to 1; the repeated `call.ended` re-assigns it to 2 although the
status was already terminal. -/
theorem C4_counterexample :
    Option.map CallRecord.end_time (dbFind c4db1 (some "c4")) = some (some 1) ∧
    Option.map CallRecord.status (dbFind c4db1 (some "c4")) = some "completed" ∧
    Option.map CallRecord.end_time (dbFind c4db2 (some "c4")) = some (some 2) :=
  ⟨rfl, rfl, rfl⟩

/-- C8 (counterexample): a Dialect B `ringing` event for the unseen `c8`
creates the record with status `initiated` (not `in-progress`) and
direction `outbound` (the payload states no direction, yet the record is
not inbound). -/
theorem C8_counterexample :
    handle_twilio_webhook c8payload (some "c8") 0 [] =
      Except.ok ([twilioNewRecord c8payload (some "c8") "ringing" 0], TwilioReply.ack) ∧
    (twilioNewRecord c8payload (some "c8") "ringing" 0).status = "initiated" ∧
    (twilioNewRecord c8payload (some "c8") "ringing" 0).direction = "outbound" :=
  ⟨rfl, rfl, rfl⟩

/-- The later Twilio mutations never touch the status. -/
theorem twilioRecFinal_status (data : Payload) (now : Nat) (r : CallRecord) :
    (twilioRecFinal data now r).status = r.status := by
  unfold twilioRecFinal
  cases data.callStatus with
  | none => by_cases h : data.recordingUrl.isSome <;> simp [h]
  | some cs =>
      by_cases h : data.recordingUrl.isSome <;>
        by_cases ht : twilioTerminal (lowerStr cs) = true <;> simp [h, ht]

/-- The later Twilio mutations never touch the key. -/
theorem twilioRecFinal_call_id (data : Payload) (now : Nat) (r : CallRecord) :
    (twilioRecFinal data now r).call_id = r.call_id := by
  unfold twilioRecFinal
  cases data.callStatus with
  | none => by_cases h : data.recordingUrl.isSome <;> simp [h]
  | some cs =>
      by_cases h : data.recordingUrl.isSome <;>
        by_cases ht : twilioTerminal (lowerStr cs) = true <;> simp [h, ht]

/-- A terminal-family `CallStatus` sets `end_time` to the current time. -/
theorem twilioRecFinal_end_time (data : Payload) (now : Nat) (r : CallRecord)
    (cs : String) (hcs : data.callStatus = some cs)
    (ht : twilioTerminal (lowerStr cs) = true) :
    (twilioRecFinal data now r).end_time = some now := by
  unfold twilioRecFinal
  rw [hcs]
  by_cases h : data.recordingUrl.isSome <;> simp [h, ht]

/-- The committed store of the Twilio branch. -/
theorem twilioFinish_fst (data : Payload) (k : Option String) (now : Nat)
    (db : DB) (created : Bool) (rec0 : CallRecord) :
    (twilioFinish data k now db created rec0).1 =
      dbCommit db created k (twilioRecFinal data now rec0) := by
  unfold twilioFinish
  by_cases h : (data.callStatus == some "in-progress") = true <;> simp [h]

/-- C7: when speech synthesis fails, `initiate_call` raises a 500 error
to the caller, yet the record was created before the synthesis attempt
and stays retrievable by its `call_id` with status `failed` — never
silently dropped. -/
theorem C7_synthesis_failure_keeps_record (db : DB) (cid phone msg err : String)
    (now : Nat) (hfresh : dbFind db (some cid) = none) :
    (initiate_call cid phone msg (Except.error err) now db).2 = Except.error 500 ∧
    dbFind (initiate_call cid phone msg (Except.error err) now db).1 (some cid) =
      some { outboundRecord cid phone msg now with status := "failed" } ∧
    ({ outboundRecord cid phone msg now with status := "failed" } : CallRecord).status
        = "failed" ∧
    ({ outboundRecord cid phone msg now with status := "failed" } : CallRecord).direction
        = "outbound" := by
  have happ : dbFind (db ++ [outboundRecord cid phone msg now]) (some cid) =
      some (outboundRecord cid phone msg now) := by
    rw [dbFind_append_of_none db (some cid) _ hfresh]
    simp [outboundRecord]
  refine ⟨rfl, ?_, rfl, rfl⟩
  show dbFind (dbReplace (db ++ [outboundRecord cid phone msg now]) (some cid) _)
      (some cid) = _
  apply dbFind_replace_self
  · rw [happ]
    rfl
  · simp [outboundRecord]

/-- C7 witness: the theorem at a concrete store, number and message. -/
theorem C7_witness :
    (initiate_call "c7" "+15551234567" "Hi there" (Except.error "TTS Error") 5 []).2
        = Except.error 500 ∧
    dbFind (initiate_call "c7" "+15551234567" "Hi there" (Except.error "TTS Error") 5 []).1
        (some "c7") = some { outboundRecord "c7" "+15551234567" "Hi there" 5 with status := "failed" } ∧
    ({ outboundRecord "c7" "+15551234567" "Hi there" 5 with status := "failed" } : CallRecord).status
        = "failed" ∧
    ({ outboundRecord "c7" "+15551234567" "Hi there" 5 with status := "failed" } : CallRecord).direction
        = "outbound" :=
  C7_synthesis_failure_keeps_record [] "c7" "+15551234567" "Hi there" "TTS Error" 5 rfl

/-- Where a Dialect B event with a present status string leaves the store
when the record exists: the found record, status pushed through the
lowercased mapping, then the remaining mutations. -/
theorem twilio_found_find (db : DB) (k : Option String) (r : CallRecord)
    (data : Payload) (cs : String) (now : Nat)
    (hf : dbFind db k = some r) (hcs : data.callStatus = some cs) :
    ∃ out, handle_twilio_webhook data k now db = Except.ok out ∧
      dbFind out.1 k = some (twilioRecFinal data now
        { r with status := (statusMapping (lowerStr cs)).getD r.status }) := by
  unfold handle_twilio_webhook
  rw [hf, hcs]
  refine ⟨_, rfl, ?_⟩
  rw [twilioFinish_fst]
  apply dbFind_replace_self
  · rw [hf]
    rfl
  · rw [twilioRecFinal_call_id]
    exact dbFind_key db k r hf

/-- Where a Dialect B event with a present status string leaves the store
when the record is unseen: the factory record, then the remaining
mutations, appended. -/
theorem twilio_create_find (db : DB) (k : Option String) (data : Payload)
    (cs : String) (now : Nat)
    (hf : dbFind db k = none) (hcs : data.callStatus = some cs) :
    ∃ out, handle_twilio_webhook data k now db = Except.ok out ∧
      dbFind out.1 k = some (twilioRecFinal data now (twilioNewRecord data k cs now)) := by
  unfold handle_twilio_webhook
  rw [hf, hcs]
  refine ⟨_, rfl, ?_⟩
  rw [twilioFinish_fst]
  show dbFind (db ++ [twilioRecFinal data now (twilioNewRecord data k cs now)]) k = _
  rw [dbFind_append_of_none db k _ hf, if_pos]
  rw [twilioRecFinal_call_id]
  show (k == k) = true
  simp

/-- C1 amended: terminal statuses are not protected.  On a record whose
status is already `completed` or `failed`, a later Dialect B event with a
mapped status string overwrites the status with the mapped value, a later
Dialect A `call.ended` sets it to `completed`, and the initiator's late
background update sets it to `in-progress` or `failed` according to the
dial outcome — none of the three consults the current status. -/
theorem C1_no_terminal_guard (sim : Bool) (db : DB) (k : Option String)
    (r : CallRecord) (dataB dataA : Payload) (cs m : String)
    (dial : Option String) (now : Nat)
    (hf : dbFind db k = some r)
    (hterm : isTerminalStatus r.status = true)
    (hcs : dataB.callStatus = some cs)
    (hm : statusMapping (lowerStr cs) = some m)
    (hev : dataA.event = some "call.ended") :
    (∃ out, handle_twilio_webhook dataB k now db = Except.ok out ∧
        Option.map CallRecord.status (dbFind out.1 k) = some m) ∧
    Option.map CallRecord.status
        (dbFind (handle_vapi_webhook sim dataA k now db).1 k) = some "completed" ∧
    Option.map CallRecord.status
        (dbFind (handle_outbound_call k (Except.ok dial) db) k) =
      some (if dial == some "call_initiated" then "in-progress" else "failed") := by
  refine ⟨?_, ?_, ?_⟩
  · obtain ⟨out, hout, hfind⟩ := twilio_found_find db k r dataB cs now hf hcs
    refine ⟨out, hout, ?_⟩
    rw [hfind]
    simp [twilioRecFinal_status, hm]
  · unfold handle_vapi_webhook
    rw [hf, hev]
    simp only [Option.isNone_some, Option.getD_some]
    have hrep : dbFind (dbCommit db false k
        { r with status := "completed", end_time := some now }) k =
        some ({ r with status := "completed", end_time := some now }) := by
      apply dbFind_replace_self
      · rw [hf]
        rfl
      · exact dbFind_key db k r hf
    simp only [show ((some "call.ended" : Option String) == some "call.started") = false from rfl,
      show ((some "call.ended" : Option String) == some "transcription") = false from rfl,
      show ((some "call.ended" : Option String) == some "call.ended") = true from rfl,
      Bool.false_eq_true, if_false, Bool.true_or, if_true]
    rw [hrep]
    rfl
  · unfold handle_outbound_call
    rw [hf]
    have hrep : dbFind (dbReplace db k
        { r with status := if dial == some "call_initiated" then "in-progress" else "failed" }) k =
        some ({ r with status := if dial == some "call_initiated" then "in-progress" else "failed" }) := by
      apply dbFind_replace_self
      · rw [hf]
        rfl
      · exact dbFind_key db k r hf
    rw [hrep]
    rfl

/-- C1 witness: the completed record `c1record` is resurrected by the
`ringing` callback, by a `call.ended` event, and by the late dial
update. -/
theorem C1_witness :
    (∃ out, handle_twilio_webhook c1payload (some "c1") 7 [c1record] = Except.ok out ∧
        Option.map CallRecord.status (dbFind out.1 (some "c1")) = some "initiated") ∧
    Option.map CallRecord.status
        (dbFind (handle_vapi_webhook false c4payload (some "c1") 7 [c1record]).1 (some "c1")) =
      some "completed" ∧
    Option.map CallRecord.status
        (dbFind (handle_outbound_call (some "c1") (Except.ok (some "call_initiated")) [c1record]) (some "c1")) =
      some (if (some "call_initiated" : Option String) == some "call_initiated"
        then "in-progress" else "failed") :=
  C1_no_terminal_guard false [c1record] (some "c1") c1record c1payload c4payload
    "ringing" "initiated" (some "call_initiated") 7 rfl rfl rfl rfl rfl

/-- C4 amended: `end_time` is assigned whenever a terminal event is
processed, each time one is processed — a Dialect A `call.ended` or a
Dialect B terminal-family status re-sets it to the current time even on a
record that is already terminal with `end_time` set. -/
theorem C4_end_time_reassigned (sim : Bool) (db : DB) (k : Option String)
    (r : CallRecord) (dataA dataB : Payload) (cs : String) (now : Nat)
    (hf : dbFind db k = some r)
    (hevA : dataA.event = some "call.ended")
    (hcs : dataB.callStatus = some cs)
    (hterm : twilioTerminal (lowerStr cs) = true) :
    Option.map CallRecord.end_time
        (dbFind (handle_vapi_webhook sim dataA k now db).1 k) = some (some now) ∧
    (∃ out, handle_twilio_webhook dataB k now db = Except.ok out ∧
        Option.map CallRecord.end_time (dbFind out.1 k) = some (some now)) := by
  constructor
  · unfold handle_vapi_webhook
    rw [hf, hevA]
    simp only [Option.isNone_some, Option.getD_some]
    have hrep : dbFind (dbCommit db false k
        { r with status := "completed", end_time := some now }) k =
        some ({ r with status := "completed", end_time := some now }) := by
      apply dbFind_replace_self
      · rw [hf]
        rfl
      · exact dbFind_key db k r hf
    simp only [show ((some "call.ended" : Option String) == some "call.started") = false from rfl,
      show ((some "call.ended" : Option String) == some "transcription") = false from rfl,
      show ((some "call.ended" : Option String) == some "call.ended") = true from rfl,
      Bool.false_eq_true, if_false, Bool.true_or, if_true]
    rw [hrep]
    rfl
  · obtain ⟨out, hout, hfind⟩ := twilio_found_find db k r dataB cs now hf hcs
    refine ⟨out, hout, ?_⟩
    rw [hfind]
    simp [twilioRecFinal_end_time _ _ _ cs hcs hterm]

/-- C4 witness: a record already terminal with `end_time` 1 has it
re-assigned to 9 by both dialects' repeated terminal callbacks. -/
theorem C4_witness :
    Option.map CallRecord.end_time
        (dbFind (handle_vapi_webhook false c4payload (some "c1") 9 [c1record]).1 (some "c1")) =
      some (some 9) ∧
    (∃ out, handle_twilio_webhook
        { emptyPayload with callSid := some "S", callStatus := some "completed", call_id := some "c1" }
        (some "c1") 9 [c1record] = Except.ok out ∧
        Option.map CallRecord.end_time (dbFind out.1 (some "c1")) = some (some 9)) :=
  C4_end_time_reassigned false [c1record] (some "c1") c1record c4payload
    { emptyPayload with callSid := some "S", callStatus := some "completed", call_id := some "c1" }
    "completed" 9 rfl rfl rfl rfl

/-- C9 amended: for a Dialect B event on an existing record, a present
provider status string acts through the fixed table applied to its
lowercased form — the record's status becomes the image of the lowercased
string, and when that is unmapped the status is unchanged. -/
theorem C9_lowercased_mapping (db : DB) (k : Option String) (r : CallRecord)
    (data : Payload) (cs : String) (now : Nat)
    (hf : dbFind db k = some r) (hcs : data.callStatus = some cs) :
    ∃ out, handle_twilio_webhook data k now db = Except.ok out ∧
      Option.map CallRecord.status (dbFind out.1 k) =
        some ((statusMapping (lowerStr cs)).getD r.status) := by
  unfold handle_twilio_webhook
  rw [hf, hcs]
  refine ⟨_, rfl, ?_⟩
  rw [twilioFinish_fst]
  have hkey := dbFind_key db k r hf
  have hrep : dbFind (dbCommit db false k
      (twilioRecFinal data now { r with status := (statusMapping (lowerStr cs)).getD r.status })) k =
      some (twilioRecFinal data now { r with status := (statusMapping (lowerStr cs)).getD r.status }) := by
    apply dbFind_replace_self
    · rw [hf]
      rfl
    · rw [twilioRecFinal_call_id]
      exact hkey
  rw [hrep]
  simp [twilioRecFinal_status]

/-- C9 witness: an existing `initiated` record and a `Ringing` callback;
the lowercased string maps to `initiated`. -/
theorem C9_witness :
    ∃ out, handle_twilio_webhook
        { emptyPayload with callSid := some "S", callStatus := some "Ringing" }
        (some "c9w") 4
        [{ call_id := some "c9w", phone_number := "p", direction := "inbound",
           start_time := 0, end_time := none, status := "in-progress",
           transcript := "", intent := none }] = Except.ok out ∧
      Option.map CallRecord.status (dbFind out.1 (some "c9w")) =
        some ((statusMapping (lowerStr "Ringing")).getD "in-progress") :=
  C9_lowercased_mapping _ _ _ _ "Ringing" 4 rfl rfl

/-- C9 (counterexample): the provider status string `"COMPLETED"` is
outside the claim's fixed table (`statusMapping` does not map it), yet the
existing record's status changes from `initiated` to `completed`, because
the code applies the table to the lowercased string. -/
theorem C9_counterexample :
    statusMapping "COMPLETED" = none ∧
    c9record.status = "initiated" ∧
    Option.map CallRecord.status
        (dbFind (handle_call_webhook false none c9payload 3 [c9record]).1 (some "c9x")) =
      some "completed" :=
  ⟨rfl, rfl, rfl⟩

/-- C8 amended: for an unseen `call_id`, Dialect A's factory creates the
record with status `in-progress`, direction `inbound` and phone from the
normalized `from` field or `"unknown"`; Dialect B's factory instead sets
status to the lowercased mapped provider status (`in-progress` only when
unmapped), direction `outbound` unless the payload's `Direction` field is
exactly `"inbound"`, and phone from `From` or `"unknown"`. -/
theorem C8_factory_fields (sim : Bool) (db : DB) (k : Option String)
    (dataA dataB : Payload) (cs : String) (now : Nat)
    (hfresh : dbFind db k = none)
    (hevA : dataA.event = none)
    (hcsB : dataB.callStatus = some cs) :
    (dbFind (handle_vapi_webhook sim dataA k now db).1 k = some (vapiNewRecord dataA k now) ∧
     (vapiNewRecord dataA k now).status = "in-progress" ∧
     (vapiNewRecord dataA k now).direction = "inbound" ∧
     (vapiNewRecord dataA k now).phone_number = dataA.fromField.getD "unknown") ∧
    ((∃ out, handle_twilio_webhook dataB k now db = Except.ok out ∧
        dbFind out.1 k = some (twilioRecFinal dataB now (twilioNewRecord dataB k cs now))) ∧
     (twilioNewRecord dataB k cs now).status = (statusMapping (lowerStr cs)).getD "in-progress" ∧
     (twilioNewRecord dataB k cs now).direction =
       (if dataB.direction == some "inbound" then "inbound" else "outbound") ∧
     (twilioNewRecord dataB k cs now).phone_number = dataB.fromCap.getD "unknown") := by
  refine ⟨⟨?_, rfl, rfl, rfl⟩, ⟨?_, rfl, rfl, rfl⟩⟩
  · unfold handle_vapi_webhook
    rw [hfresh, hevA]
    simp only [show ((none : Option String) == some "call.started") = false from rfl,
      show ((none : Option String) == some "transcription") = false from rfl,
      show ((none : Option String) == some "call.ended") = false from rfl,
      show ((none : Option String) == some "call.completed") = false from rfl,
      Bool.false_eq_true, if_false, Bool.or_self]
    show dbFind (db ++ [vapiNewRecord dataA k now]) k = some (vapiNewRecord dataA k now)
    rw [dbFind_append_of_none db k _ hfresh]
    have hcid : ((vapiNewRecord dataA k now).call_id == k) = true := by
      show (k == k) = true
      simp
    rw [if_pos hcid]
  · exact twilio_create_find db k dataB cs now hfresh hcsB

/-- C8 witness: the empty store, an event-less Dialect A payload and the
`ringing` Dialect B payload. -/
theorem C8_witness :
    (dbFind (handle_vapi_webhook false emptyPayload (some "c8") 0 []).1 (some "c8") =
        some (vapiNewRecord emptyPayload (some "c8") 0) ∧
     (vapiNewRecord emptyPayload (some "c8") 0).status = "in-progress" ∧
     (vapiNewRecord emptyPayload (some "c8") 0).direction = "inbound" ∧
     (vapiNewRecord emptyPayload (some "c8") 0).phone_number = emptyPayload.fromField.getD "unknown") ∧
    ((∃ out, handle_twilio_webhook c8payload (some "c8") 0 [] = Except.ok out ∧
        dbFind out.1 (some "c8") =
          some (twilioRecFinal c8payload 0 (twilioNewRecord c8payload (some "c8") "ringing" 0))) ∧
     (twilioNewRecord c8payload (some "c8") "ringing" 0).status =
       (statusMapping (lowerStr "ringing")).getD "in-progress" ∧
     (twilioNewRecord c8payload (some "c8") "ringing" 0).direction =
       (if c8payload.direction == some "inbound" then "inbound" else "outbound") ∧
     (twilioNewRecord c8payload (some "c8") "ringing" 0).phone_number =
       c8payload.fromCap.getD "unknown") :=
  C8_factory_fields false [] (some "c8") emptyPayload c8payload "ringing" 0 rfl rfl rfl

set_option maxRecDepth 8000 in
/-- C5: the Dialect A sequence `call.started`, transcription `"I need
help with my account"`, `call.ended` on a previously unseen `call_id`
(simulation mode disabled) ends with status `completed`, intent
`support`, `end_time` set, and a transcript containing the AI opening
line, the Customer line, and the AI support response. -/
theorem C5_dialect_A_scenario (db : DB) (cid : String) (t1 t2 t3 : Nat)
    (hfresh : dbFind db (some cid) = none) :
    dbFind (c5run db cid t1 t2 t3) (some cid) = some (c5rec3 cid t1 t3) ∧
    (c5rec3 cid t1 t3).status = "completed" ∧
    (c5rec3 cid t1 t3).intent = some "support" ∧
    (c5rec3 cid t1 t3).end_time = some t3 ∧
    strContains (c5rec3 cid t1 t3).transcript
      "AI: Thank you for calling. How can I help you today?" = true ∧
    strContains (c5rec3 cid t1 t3).transcript
      "Customer: I need help with my account" = true ∧
    strContains (c5rec3 cid t1 t3).transcript
      "AI: I understand you're having an issue. Could you please describe the problem in more detail so I can assist you better?" = true := by
  have h1 : (handle_vapi_webhook false c5started (some cid) t1 db).1 = db ++ [c5rec1 cid t1] := by
    unfold handle_vapi_webhook
    rw [hfresh]
    rfl
  have h2 : dbFind (db ++ [c5rec1 cid t1]) (some cid) = some (c5rec1 cid t1) := by
    rw [dbFind_append_of_none _ _ _ hfresh]
    have hcid : ((c5rec1 cid t1).call_id == some cid) = true := by
      show (some cid == some cid) = true
      simp
    rw [if_pos hcid]
  have h3 : (handle_vapi_webhook false c5transcription (some cid) t2 (db ++ [c5rec1 cid t1])).1 =
      dbReplace (db ++ [c5rec1 cid t1]) (some cid) (c5rec2 cid t1) := by
    unfold handle_vapi_webhook
    rw [h2]
    rfl
  have h4 : dbFind (dbReplace (db ++ [c5rec1 cid t1]) (some cid) (c5rec2 cid t1)) (some cid) =
      some (c5rec2 cid t1) := by
    apply dbFind_replace_self
    · rw [h2]
      rfl
    · show (some cid == some cid) = true
      simp
  have h5 : (handle_vapi_webhook false c5ended (some cid) t3
      (dbReplace (db ++ [c5rec1 cid t1]) (some cid) (c5rec2 cid t1))).1 =
      dbReplace (dbReplace (db ++ [c5rec1 cid t1]) (some cid) (c5rec2 cid t1)) (some cid)
        (c5rec3 cid t1 t3) := by
    unfold handle_vapi_webhook
    rw [h4]
    rfl
  have h6 : dbFind (dbReplace (dbReplace (db ++ [c5rec1 cid t1]) (some cid) (c5rec2 cid t1))
      (some cid) (c5rec3 cid t1 t3)) (some cid) = some (c5rec3 cid t1 t3) := by
    apply dbFind_replace_self
    · rw [h4]
      rfl
    · show (some cid == some cid) = true
      simp
  refine ⟨?_, rfl, rfl, rfl, rfl, rfl, rfl⟩
  show dbFind ((handle_vapi_webhook false c5ended (some cid) t3
      ((handle_vapi_webhook false c5transcription (some cid) t2
        ((handle_vapi_webhook false c5started (some cid) t1 db).1)).1)).1) (some cid) =
    some (c5rec3 cid t1 t3)
  rw [h1, h3, h5]
  exact h6

/-- C5 witness: the scenario run from the empty store for call id
`"c1"`. -/
theorem C5_witness :
    dbFind (c5run [] "c1" 1 2 3) (some "c1") = some (c5rec3 "c1" 1 3) ∧
    (c5rec3 "c1" 1 3).status = "completed" ∧
    (c5rec3 "c1" 1 3).intent = some "support" ∧
    (c5rec3 "c1" 1 3).end_time = some 3 ∧
    strContains (c5rec3 "c1" 1 3).transcript
      "AI: Thank you for calling. How can I help you today?" = true ∧
    strContains (c5rec3 "c1" 1 3).transcript
      "Customer: I need help with my account" = true ∧
    strContains (c5rec3 "c1" 1 3).transcript
      "AI: I understand you're having an issue. Could you please describe the problem in more detail so I can assist you better?" = true :=
  C5_dialect_A_scenario [] "c1" 1 2 3 rfl

/-- C10: the simulation flag is on whenever `SIMULATION_MODE` is unset;
with it on, `handle_inbound_call` returns the same fixed reply with no
intent field for every payload, so a transcription event leaves the
record's stored intent unchanged; and the fixed simulated reply is none
of the per-intent response strings. -/
theorem C10_simulation_default (data : Payload) (db : DB) (k : Option String)
    (r : CallRecord) (now : Nat)
    (hf : dbFind db k = some r) (hev : data.event = some "transcription") :
    simulation_mode none = true ∧
    (∀ d : Payload, handle_inbound_call true d =
      { action := some "talk",
        text := some "Thanks for calling. This is a simulated response.",
        intent := none, status := none }) ∧
    Option.map CallRecord.intent (dbFind (handle_vapi_webhook true data k now db).1 k) =
      some r.intent ∧
    (∀ p ∈ responsesTable, p.2 ≠ "Thanks for calling. This is a simulated response.") := by
  refine ⟨rfl, fun d => rfl, ?_, by decide⟩
  unfold handle_vapi_webhook
  rw [hf, hev]
  have hrep : dbFind (dbCommit db false k
      { r with transcript := r.transcript ++ "\nCustomer: " ++ data.transcript.getD "" ++
          "\nAI: " ++ "Thanks for calling. This is a simulated response." }) k =
      some ({ r with transcript := r.transcript ++ "\nCustomer: " ++ data.transcript.getD "" ++
          "\nAI: " ++ "Thanks for calling. This is a simulated response." }) := by
    apply dbFind_replace_self
    · rw [hf]
      rfl
    · exact dbFind_key db k r hf
  show Option.map CallRecord.intent (dbFind (dbCommit db false k
      { r with transcript := r.transcript ++ "\nCustomer: " ++ data.transcript.getD "" ++
          "\nAI: " ++ "Thanks for calling. This is a simulated response." }) k) = some r.intent
  rw [hrep]
  rfl

/-- C10 witness: a transcription event whose text would classify as
`support`, against a record whose stored intent is `gratitude`; in
simulation mode the stored intent stays `gratitude`. -/
theorem C10_witness :
    simulation_mode none = true ∧
    (∀ d : Payload, handle_inbound_call true d =
      { action := some "talk",
        text := some "Thanks for calling. This is a simulated response.",
        intent := none, status := none }) ∧
    Option.map CallRecord.intent
        (dbFind (handle_vapi_webhook true c10payload (some "c10") 9 [c10record]).1 (some "c10")) =
      some c10record.intent ∧
    (∀ p ∈ responsesTable, p.2 ≠ "Thanks for calling. This is a simulated response.") :=
  C10_simulation_default c10payload [c10record] (some "c10") c10record 9 rfl rfl

/-- One scheduler step never pushes the count of records keyed `cid`
above one: the only insertion is guarded by the unique index. -/
theorem stepTask_countP (cid : String) (factory : CallRecord)
    (db db' : DB) (ph ph' : CreatePhase)
    (h : stepTask (some cid) factory db ph = some (db', ph'))
    (hinv : db.countP (fun r => r.call_id == some cid) ≤ 1) :
    db'.countP (fun r => r.call_id == some cid) ≤ 1 := by
  cases ph with
  | ready =>
      unfold stepTask at h
      obtain ⟨h1, h2⟩ := Prod.mk.injEq .. ▸ Option.some.injEq .. ▸ h
      exact h1 ▸ hinv
  | queried found =>
      cases found with
      | some r =>
          unfold stepTask at h
          obtain ⟨h1, h2⟩ := Prod.mk.injEq .. ▸ Option.some.injEq .. ▸ h
          exact h1 ▸ hinv
      | none =>
          unfold stepTask at h
          unfold commitAdd at h
          by_cases hg : (factory.call_id.isSome && (dbFind db factory.call_id).isSome) = true
          · rw [if_pos hg] at h
            obtain ⟨h1, h2⟩ := Prod.mk.injEq .. ▸ Option.some.injEq .. ▸ h
            exact h1 ▸ hinv
          · rw [if_neg hg] at h
            obtain ⟨h1, h2⟩ := Prod.mk.injEq .. ▸ Option.some.injEq .. ▸ h
            subst h1
            by_cases hfc : (factory.call_id == some cid) = true
            · have heq : factory.call_id = some cid := by
                cases hx : factory.call_id with
                | none => rw [hx] at hfc; simp at hfc
                | some v =>
                    rw [hx] at hfc
                    have hv : v = cid := by simpa using hfc
                    rw [hv]
              have hfs : factory.call_id.isSome = true := by rw [heq]; rfl
              have hnf : (dbFind db factory.call_id).isSome = false := by
                cases hy : (dbFind db factory.call_id).isSome with
                | false => rfl
                | true => exact absurd (by simp [hfs, hy]) hg
              have hnone : dbFind db factory.call_id = none :=
                Option.not_isSome_iff_eq_none.mp (by rw [hnf]; decide)
              have hz : db.countP (fun r => r.call_id == some cid) = 0 :=
                countP_of_dbFind_none db (some cid) (heq ▸ hnone)
              rw [List.countP_append, hz]
              simp [hfc]
            · rw [List.countP_append]
              have : List.countP (fun r => r.call_id == some cid) [factory] = 0 := by
                simp [List.countP_cons, hfc]
              omega
  | finished res =>
      unfold stepTask at h
      exact absurd h (by simp)

/-- C2 amended: the find-or-create path is check-then-act, not atomic.
At-most-one-creation still holds — in every interleaving of two
concurrent deliveries for the same unseen `call_id` the store never has
two records for it, because the unique index rejects the second insert —
but the two handlers do not both end up operating on the single record:
there is an interleaving in which both pass the absence check, one
inserts, and the other finishes with a duplicate-key error instead. -/
theorem C2_check_then_act (cid : String) (factory : CallRecord)
    (hfac : factory.call_id = some cid) :
    (∀ s : RaceState,
        Relation.ReflTransGen (RaceStep (some cid) factory) raceStart s →
        s.db.countP (fun r => r.call_id == some cid) ≤ 1) ∧
    (∃ s : RaceState,
        Relation.ReflTransGen (RaceStep (some cid) factory) raceStart s ∧
        s.t1 = CreatePhase.finished (Except.ok ()) ∧
        ∃ e, s.t2 = CreatePhase.finished (Except.error e)) := by
  constructor
  · intro s hreach
    induction hreach with
    | refl => simp [raceStart]
    | tail hab hbc ih =>
        cases hbc with
        | left db db' t1 t1' t2 hstep => exact stepTask_countP cid factory db db' t1 t1' hstep ih
        | right db db' t1 t2 t2' hstep => exact stepTask_countP cid factory db db' t2 t2' hstep ih
  · refine ⟨⟨[factory], CreatePhase.finished (Except.ok ()),
      CreatePhase.finished (Except.error
        "IntegrityError: UNIQUE constraint failed: call_records.call_id")⟩, ?_, rfl, ?_⟩
    · have s1 : RaceStep (some cid) factory raceStart
          ⟨[], CreatePhase.queried none, CreatePhase.ready⟩ :=
        RaceStep.left [] [] CreatePhase.ready (CreatePhase.queried none)
          CreatePhase.ready rfl
      have s2 : RaceStep (some cid) factory
          ⟨[], CreatePhase.queried none, CreatePhase.ready⟩
          ⟨[], CreatePhase.queried none, CreatePhase.queried none⟩ :=
        RaceStep.right [] [] (CreatePhase.queried none) CreatePhase.ready
          (CreatePhase.queried none) (by rfl)
      have s3 : RaceStep (some cid) factory
          ⟨[], CreatePhase.queried none, CreatePhase.queried none⟩
          ⟨[factory], CreatePhase.finished (Except.ok ()), CreatePhase.queried none⟩ :=
        RaceStep.left [] [factory] (CreatePhase.queried none)
          (CreatePhase.finished (Except.ok ())) (CreatePhase.queried none) (by
            show stepTask (some cid) factory [] (CreatePhase.queried none) = _
            unfold stepTask commitAdd
            simp [dbFind, List.find?])
      have s4 : RaceStep (some cid) factory
          ⟨[factory], CreatePhase.finished (Except.ok ()), CreatePhase.queried none⟩
          ⟨[factory], CreatePhase.finished (Except.ok ()),
            CreatePhase.finished (Except.error
              "IntegrityError: UNIQUE constraint failed: call_records.call_id")⟩ :=
        RaceStep.right [factory] [factory] (CreatePhase.finished (Except.ok ()))
          (CreatePhase.queried none)
          (CreatePhase.finished (Except.error
            "IntegrityError: UNIQUE constraint failed: call_records.call_id")) (by
            show stepTask (some cid) factory [factory] (CreatePhase.queried none) = _
            unfold stepTask commitAdd
            simp [dbFind, List.find?, hfac])
      exact Relation.ReflTransGen.head s1 (Relation.ReflTransGen.head s2
        (Relation.ReflTransGen.head s3 (Relation.ReflTransGen.head s4
          Relation.ReflTransGen.refl)))
    · exact ⟨_, rfl⟩

/-- C2 witness: the amended theorem at the concrete factory record for
call id `c9`. -/
theorem C2_witness :
    (∀ s : RaceState,
        Relation.ReflTransGen (RaceStep (some "c9") c2factory) raceStart s →
        s.db.countP (fun r => r.call_id == some "c9") ≤ 1) ∧
    (∃ s : RaceState,
        Relation.ReflTransGen (RaceStep (some "c9") c2factory) raceStart s ∧
        s.t1 = CreatePhase.finished (Except.ok ()) ∧
        ∃ e, s.t2 = CreatePhase.finished (Except.error e)) :=
  C2_check_then_act "c9" c2factory rfl

/-- C2 (counterexample): with the concrete factory record for the unseen
call id `c9`, there is an interleaving of the two deliveries after which
the first has inserted the record and the second has finished with a
duplicate-key error — so not all handlers end up operating on the single
created record. -/
theorem C2_counterexample :
    ∃ s : RaceState,
      Relation.ReflTransGen (RaceStep (some "c9") c2factory) raceStart s ∧
      s.t1 = CreatePhase.finished (Except.ok ()) ∧
      s.t2 = CreatePhase.finished (Except.error
        "IntegrityError: UNIQUE constraint failed: call_records.call_id") ∧
      s.db = [c2factory] := by
  refine ⟨⟨[c2factory], CreatePhase.finished (Except.ok ()),
    CreatePhase.finished (Except.error
      "IntegrityError: UNIQUE constraint failed: call_records.call_id")⟩, ?_, rfl, rfl, rfl⟩
  have s1 : RaceStep (some "c9") c2factory raceStart
      ⟨[], CreatePhase.queried none, CreatePhase.ready⟩ :=
    RaceStep.left [] [] CreatePhase.ready (CreatePhase.queried none) CreatePhase.ready rfl
  have s2 : RaceStep (some "c9") c2factory
      ⟨[], CreatePhase.queried none, CreatePhase.ready⟩
      ⟨[], CreatePhase.queried none, CreatePhase.queried none⟩ :=
    RaceStep.right [] [] (CreatePhase.queried none) CreatePhase.ready
      (CreatePhase.queried none) rfl
  have s3 : RaceStep (some "c9") c2factory
      ⟨[], CreatePhase.queried none, CreatePhase.queried none⟩
      ⟨[c2factory], CreatePhase.finished (Except.ok ()), CreatePhase.queried none⟩ :=
    RaceStep.left [] [c2factory] (CreatePhase.queried none)
      (CreatePhase.finished (Except.ok ())) (CreatePhase.queried none) rfl
  have s4 : RaceStep (some "c9") c2factory
      ⟨[c2factory], CreatePhase.finished (Except.ok ()), CreatePhase.queried none⟩
      ⟨[c2factory], CreatePhase.finished (Except.ok ()),
        CreatePhase.finished (Except.error
          "IntegrityError: UNIQUE constraint failed: call_records.call_id")⟩ :=
    RaceStep.right [c2factory] [c2factory] (CreatePhase.finished (Except.ok ()))
      (CreatePhase.queried none)
      (CreatePhase.finished (Except.error
        "IntegrityError: UNIQUE constraint failed: call_records.call_id")) rfl
  exact Relation.ReflTransGen.head s1 (Relation.ReflTransGen.head s2
    (Relation.ReflTransGen.head s3 (Relation.ReflTransGen.head s4
      Relation.ReflTransGen.refl)))

end VoiceAgent
